import Mathlib

/-!
Verification of the icon MCP server (`server.py`): a shallow embedding of the
host-fallback requester, the parameter normalizers and the five operation
handlers, together with theorems about their behaviour.

Network I/O is modelled by an explicit environment `Net` mapping a request
(url, query parameters, headers) to the outcome of that attempt; each
operation additionally returns the ordered trace of URLs it attempted, so
that "no network call happened" and "hosts were tried in order" are
statable.
-/

set_option maxHeartbeats 1000000

namespace IconMcp

/-- JSON values as returned by `resp.json()`; numbers restricted to integers,
which suffices for every claim under study. -/
inductive Json where
  | null : Json
  | bool (b : Bool) : Json
  | num (n : Int) : Json
  | str (s : String) : Json
  | arr (elems : List Json) : Json
  | obj (fields : List (String × Json)) : Json

/-- Python truthiness (`not x` is `pyNot x`): `None`, `False`, `0`, `""`,
empty list and empty dict are falsy. -/
def pyNot : Json → Bool
  | .null => true
  | .bool b => !b
  | .num n => n == 0
  | .str s => s == ""
  | .arr elems => elems.isEmpty
  | .obj fields => fields.isEmpty

/-- Whether the character list `needle` occurs contiguously in `hay`. -/
def listHasInfix (needle hay : List Char) : Bool :=
  needle.isPrefixOf hay ||
    match hay with
    | [] => false
    | _ :: t => listHasInfix needle t

/-- Python substring test `needle in hay` on strings. -/
def strHasSub (needle hay : String) : Bool :=
  listHasInfix needle.toList hay.toList

/-- Python `key in j` for a string `key`, mirrored on each `Json` shape:
key membership for dicts, substring for strings, element equality for
lists, and a `TypeError` (modelled as `Except.error`) otherwise. -/
def jsonContains (key : String) : Json → Except Unit Bool
  | .obj fields => .ok ((fields.map Prod.fst).contains key)
  | .str s => .ok (strHasSub key s)
  | .arr elems => .ok (elems.any fun e => match e with | .str s => s == key | _ => false)
  | _ => .error ()

/-- A query-parameter value: the source only ever sends strings and ints. -/
inductive PVal where
  | str (s : String) : PVal
  | int (n : Int) : PVal
deriving DecidableEq

/-- What one host sends back on a non-raising GET: the body as text, and its
JSON parse when the body is valid JSON (`none` models `resp.json()` raising). -/
structure HostResponse where
  jsonBody : Option Json
  textBody : String

/-- The network environment: for a url, query parameters and headers, either
a response (2xx after redirects) or `none` for any raised error (connection
failure, timeout, non-2xx status). -/
def Net : Type :=
  String → List (String × PVal) → List (String × String) → Option HostResponse

/-- What the requester hands back on success: parsed JSON or raw text. -/
inductive RetVal where
  | json (j : Json) : RetVal
  | text (s : String) : RetVal

-- ---------------------------------------------------------------------------
-- Constants (server.py lines 9-14)
-- ---------------------------------------------------------------------------

def ICONIFY_BASE : String := "https://api.iconify.design"

def ICONIFY_BACKUPS : List String :=
  ["https://api.simplesvg.com", "https://api.unisvg.com"]

def USER_AGENT : String := "icon-mcp/1.0"

-- ---------------------------------------------------------------------------
-- Host fallback requester (server.py lines 24-52)
-- ---------------------------------------------------------------------------

/-- The header set built at lines 31-36: fixed identifier and Accept header,
extended by caller-supplied headers (which, as in `dict.update`, win). -/
def _request_headers (expect_json : Bool) (headers : Option (List (String × String))) :
    List (String × String) :=
  [("User-Agent", USER_AGENT),
   ("Accept", if expect_json then "application/json" else "image/svg+xml")] ++
    headers.getD []

/-- Line 47: on a non-raising response, `resp.json()` when JSON is expected
(raising — hence failing the attempt — if the body does not parse), else
`resp.text`. -/
def attemptValue (expect_json : Bool) (r : HostResponse) : Option RetVal :=
  if expect_json then r.jsonBody.map RetVal.json else some (RetVal.text r.textBody)

/-- One host attempt at a url: `none` exactly when lines 48-50 would swallow
an exception and move on. -/
def attempt (expect_json : Bool) (net : Net) (params : List (String × PVal))
    (hdrs : List (String × String)) (url : String) : Option RetVal :=
  (net url params hdrs).bind (attemptValue expect_json)

/-- The `for host in hosts` loop of lines 42-52, also recording the ordered
list of URLs attempted. -/
def tryHosts (expect_json : Bool) (net : Net) (path : String)
    (params : List (String × PVal)) (hdrs : List (String × String)) :
    List String → Option RetVal × List String
  | [] => (none, [])
  | host :: rest =>
    let url := host ++ path
    match attempt expect_json net params hdrs url with
    | some v => (some v, [url])
    | none =>
      let r := tryHosts expect_json net path params hdrs rest
      (r.1, url :: r.2)

/-- `_request_iconify` (lines 24-52): primary host then each backup in listed
order; first success wins; `none` when every host fails. -/
def _request_iconify (net : Net) (path : String) (params : List (String × PVal))
    (expect_json : Bool) (headers : Option (List (String × String))) :
    Option RetVal × List String :=
  tryHosts expect_json net path params (_request_headers expect_json headers)
    (ICONIFY_BASE :: ICONIFY_BACKUPS)

-- ---------------------------------------------------------------------------
-- Parameter normalizers (server.py lines 54-67)
-- ---------------------------------------------------------------------------

/-- `_clamp_limit` (lines 54-58). -/
def _clamp_limit : Option Int → Int
  | none => 64
  | some n => max 32 (min 999 n)

/-- `icon.split(":", 1)` restricted to a found separator: splits a character
list at the first occurrence of `c`, or `none` when `c` is absent. -/
def splitOnceChar (c : Char) : List Char → Option (List Char × List Char)
  | [] => none
  | x :: xs =>
    if x = c then some ([], xs)
    else
      match splitOnceChar c xs with
      | some (a, b) => some (x :: a, b)
      | none => none

/-- `_split_icon` (lines 60-67); the two `ValueError` messages become
`Except.error` values. -/
def _split_icon (icon : String) : Except String (String × String) :=
  match splitOnceChar ':' icon.toList with
  | none => .error "Icon must be in \x27prefix:name\x27 format, e.g., \x27mdi:home\x27"
  | some (p, n) =>
    if p = [] ∨ n = [] then .error "Invalid icon, expected \x27prefix:name\x27"
    else .ok (String.mk p, String.mk n)

-- ---------------------------------------------------------------------------
-- Shared result shaping
-- ---------------------------------------------------------------------------

/-- Python truthiness of a requester result. -/
def retTruthy : RetVal → Bool
  | .json j => !(pyNot j)
  | .text s => s != ""

/-- The `data or msg` pattern (lines 151, 163, 178, 200): the payload when
present and truthy, else the failure message. -/
def retOr (data : Option RetVal) (msg : String) : RetVal ⊕ String :=
  match data with
  | some v => if retTruthy v then .inl v else .inr msg
  | none => .inr msg

-- ---------------------------------------------------------------------------
-- search_icons (server.py lines 69-115)
-- ---------------------------------------------------------------------------

/-- The recurring `if x: params["k"] = f(x)` idiom on an optional string
argument: the entry is added exactly when the argument is present and
non-empty (Python truthiness). -/
def strParam (k : String) (f : String → PVal) : Option String → List (String × PVal)
  | some s => if s ≠ "" then [(k, f s)] else []
  | none => []

/-- The `if xs: params["k"] = ",".join(xs)` idiom on an optional string
list: the comma-joined entry is added exactly when the list is present and
non-empty. -/
def listStrParam (k : String) : Option (List String) → List (String × PVal)
  | some ps => if ps ≠ [] then [(k, .str (String.intercalate "," ps))] else []
  | none => []

/-- The `if b: params["k"] = v` idiom on a boolean argument. -/
def boolParam (k : String) (b : Bool) (v : PVal) : List (String × PVal) :=
  if b then [(k, v)] else []

def searchFailMsg : String := "Unable to fetch search results or no results found."

/-- Python `s.strip()`: drop leading and trailing whitespace. -/
def pyStrip (s : String) : String :=
  String.mk (((s.toList.dropWhile Char.isWhitespace).reverse.dropWhile
    Char.isWhitespace).reverse)

/-- Lines 94-98: append style / palette keyword tokens to the stripped query. -/
def buildSearchQuery (query : String) (style : Option String) (palette : Option Bool) :
    String :=
  let q := pyStrip query
  let q :=
    match style with
    | some s => if s = "fill" ∨ s = "stroke" then q ++ " style=" ++ s else q
    | none => q
  match palette with
  | some b => q ++ " palette=" ++ (if b then "true" else "false")
  | none => q

/-- Lines 100-110: the query-parameter mapping sent to `/search`. -/
def search_icons_params (query : String) (limit : Option Int) (start : Int)
    (pfx : Option String) (pfxs : Option (List String)) (category : Option String)
    (style : Option String) (palette : Option Bool) : List (String × PVal) :=
  [("query", .str (buildSearchQuery query style palette)),
   ("limit", .int (_clamp_limit limit)),
   ("start", .int (max 0 start))] ++
  strParam "prefix" .str pfx ++
  listStrParam "prefixes" pfxs ++
  strParam "category" .str category

/-- Python `"icons" in data` lifted to a requester result. -/
def retContains (key : String) : RetVal → Except Unit Bool
  | .json j => jsonContains key j
  | .text s => .ok (strHasSub key s)

/-- Lines 113-115: `if not data or "icons" not in data` — message on absent,
falsy or icons-less data, the data verbatim otherwise; the `in` test on a
non-container raises (`Except.error`). -/
def search_shape (data : Option RetVal) : Except Unit (RetVal ⊕ String) :=
  match data with
  | none => .ok (.inr searchFailMsg)
  | some v =>
    if retTruthy v then
      match retContains "icons" v with
      | .ok true => .ok (.inl v)
      | .ok false => .ok (.inr searchFailMsg)
      | .error e => .error e
    else .ok (.inr searchFailMsg)

/-- `search_icons` (lines 69-115). -/
def search_icons (net : Net) (query : String) (limit : Option Int) (start : Int)
    (pfx : Option String) (pfxs : Option (List String)) (category : Option String)
    (style : Option String) (palette : Option Bool) :
    Except Unit (RetVal ⊕ String) × List String :=
  let r := _request_iconify net "/search"
    (search_icons_params query limit start pfx pfxs category style palette) true none
  (search_shape r.1, r.2)

-- ---------------------------------------------------------------------------
-- get_svg (server.py lines 117-151)
-- ---------------------------------------------------------------------------

def svgFailMsg : String := "Unable to fetch SVG."

/-- Line 136: `color.replace("#", "%23")` — for this single-character
pattern, every `#` is replaced by the three characters `%23`. -/
def encodeColor (c : String) : String :=
  String.mk (c.toList.foldr
    (fun ch acc => if ch = '#' then '%' :: '2' :: '3' :: acc else ch :: acc) [])

/-- Lines 134-148: the query-parameter mapping for `/{prefix}/{name}.svg`;
each optional field is sent only when provided and truthy, color is
percent-encoded, booleans become `1` when true. -/
def get_svg_params (color width height rotate flip : Option String)
    (box download : Bool) : List (String × PVal) :=
  strParam "color" (fun c => .str (encodeColor c)) color ++
  strParam "width" .str width ++
  strParam "height" .str height ++
  strParam "rotate" .str rotate ++
  strParam "flip" .str flip ++
  boolParam "box" box (.int 1) ++
  boolParam "download" download (.int 1)

/-- `get_svg` (lines 117-151): validation failure short-circuits to the
error message with an empty request trace; otherwise `svg or msg`. -/
def get_svg (net : Net) (icon : String) (color width height rotate flip : Option String)
    (box download : Bool) : (RetVal ⊕ String) × List String :=
  match _split_icon icon with
  | .error e => (.inr e, [])
  | .ok (p, n) =>
    let r := _request_iconify net ("/" ++ p ++ "/" ++ n ++ ".svg")
      (get_svg_params color width height rotate flip box download) false none
    (retOr r.1 svgFailMsg, r.2)

-- ---------------------------------------------------------------------------
-- get_icon_data (server.py lines 153-163)
-- ---------------------------------------------------------------------------

def iconDataFailMsg : String := "Unable to fetch icon data."

/-- `get_icon_data` (lines 153-163). -/
def get_icon_data (net : Net) (icon : String) : (RetVal ⊕ String) × List String :=
  match _split_icon icon with
  | .error e => (.inr e, [])
  | .ok (p, n) =>
    let r := _request_iconify net ("/" ++ p ++ ".json") [("icons", .str n)] true none
    (retOr r.1 iconDataFailMsg, r.2)

-- ---------------------------------------------------------------------------
-- list_collections (server.py lines 165-178)
-- ---------------------------------------------------------------------------

def collectionsFailMsg : String := "Unable to fetch collections."

/-- Lines 171-175: the query-parameter mapping for `/collections`. -/
def list_collections_params (pfx : Option String) (pfxs : Option (List String)) :
    List (String × PVal) :=
  strParam "prefix" .str pfx ++ listStrParam "prefixes" pfxs

/-- `list_collections` (lines 165-178). -/
def list_collections (net : Net) (pfx : Option String) (pfxs : Option (List String)) :
    (RetVal ⊕ String) × List String :=
  let r := _request_iconify net "/collections" (list_collections_params pfx pfxs) true none
  (retOr r.1 collectionsFailMsg, r.2)

-- ---------------------------------------------------------------------------
-- list_icons_in_collection (server.py lines 180-200)
-- ---------------------------------------------------------------------------

/-- Line 200: the failure message, which names the requested prefix. -/
def collectionFailMsg (pfx : String) : String :=
  "Unable to fetch icons for collection \x27" ++ pfx ++ "\x27."

/-- Lines 193-197: `prefix` always sent; `info` / `chars` sent as `"1"` only
when requested. -/
def list_icons_in_collection_params (pfx : String) (include_info include_chars : Bool) :
    List (String × PVal) :=
  [("prefix", .str pfx)] ++
  boolParam "info" include_info (.str "1") ++
  boolParam "chars" include_chars (.str "1")

/-- `list_icons_in_collection` (lines 180-200). -/
def list_icons_in_collection (net : Net) (pfx : String)
    (include_info include_chars : Bool) : (RetVal ⊕ String) × List String :=
  let r := _request_iconify net "/collection"
    (list_icons_in_collection_params pfx include_info include_chars) true none
  (retOr r.1 (collectionFailMsg pfx), r.2)

-- ---------------------------------------------------------------------------
-- Helper lemmas
-- ---------------------------------------------------------------------------

theorem splitOnceChar_append (c : Char) :
    ∀ p : List Char, c ∉ p → ∀ n : List Char, splitOnceChar c (p ++ c :: n) = some (p, n) := by
  intro p
  induction p with
  | nil =>
    intro _ n
    simp [splitOnceChar]
  | cons x xs ih =>
    intro hp n
    have hx : ¬ x = c := by
      rintro rfl
      exact hp (List.mem_cons_self _ _)
    have hxs : c ∉ xs := fun hc => hp (List.mem_cons_of_mem x hc)
    simp only [List.cons_append, splitOnceChar, if_neg hx, List.append_eq, ih hxs n]

theorem splitOnceChar_none_iff (c : Char) :
    ∀ l : List Char, splitOnceChar c l = none ↔ c ∉ l := by
  intro l
  induction l with
  | nil => simp [splitOnceChar]
  | cons x xs ih =>
    by_cases hx : x = c
    · subst hx
      simp [splitOnceChar]
    · simp only [splitOnceChar, if_neg hx, List.mem_cons]
      rcases h : splitOnceChar c xs with _ | ⟨a, b⟩
      · refine iff_of_true rfl ?_
        rintro (rfl | hc)
        · exact hx rfl
        · exact ih.mp h hc
      · refine iff_of_false (by simp) ?_
        intro hcontra
        apply hcontra
        right
        by_contra hc
        rw [ih.mpr hc] at h
        exact Option.noConfusion h

theorem splitOnceChar_sound (c : Char) :
    ∀ l a b : List Char, splitOnceChar c l = some (a, b) → l = a ++ c :: b ∧ c ∉ a := by
  intro l
  induction l with
  | nil =>
    intro a b h
    exact Option.noConfusion h
  | cons x xs ih =>
    intro a b h
    by_cases hx : x = c
    · subst hx
      simp only [splitOnceChar, if_pos rfl, Option.some.injEq, Prod.mk.injEq] at h
      obtain ⟨rfl, rfl⟩ := h
      exact ⟨by simp, by simp⟩
    · simp only [splitOnceChar, if_neg hx] at h
      rcases h2 : splitOnceChar c xs with _ | ⟨a1, b1⟩
      · rw [h2] at h
        exact Option.noConfusion h
      · rw [h2] at h
        simp only [Option.some.injEq, Prod.mk.injEq] at h
        obtain ⟨rfl, rfl⟩ := h
        obtain ⟨hxs, hna⟩ := ih a1 b1 h2
        refine ⟨by simp [hxs], ?_⟩
        intro hmem
        rcases List.mem_cons.mp hmem with h1 | h1
        · exact hx h1.symm
        · exact hna h1

theorem tryHosts_none_iff (ej : Bool) (net : Net) (path : String)
    (params : List (String × PVal)) (hdrs : List (String × String)) :
    ∀ l : List String,
      (tryHosts ej net path params hdrs l).1 = none ↔
        ∀ h ∈ l, attempt ej net params hdrs (h ++ path) = none := by
  intro l
  induction l with
  | nil => simp [tryHosts]
  | cons h t ih =>
    rcases ha : attempt ej net params hdrs (h ++ path) with _ | v
    · simp only [tryHosts, ha, List.mem_cons]
      constructor
      · intro h1 x hx
        rcases hx with rfl | hx
        · exact ha
        · exact (ih.mp h1) x hx
      · intro h1
        exact ih.mpr (fun x hx => h1 x (Or.inr hx))
    · simp only [tryHosts, ha, List.mem_cons]
      refine iff_of_false (by simp) ?_
      intro hall
      rw [hall h (Or.inl rfl)] at ha
      exact Option.noConfusion ha

theorem tryHosts_none_trace (ej : Bool) (net : Net) (path : String)
    (params : List (String × PVal)) (hdrs : List (String × String)) :
    ∀ l : List String,
      (tryHosts ej net path params hdrs l).1 = none →
        (tryHosts ej net path params hdrs l).2 = l.map (fun h => h ++ path) := by
  intro l
  induction l with
  | nil =>
    intro _
    simp [tryHosts]
  | cons h t ih =>
    intro hnone
    rcases ha : attempt ej net params hdrs (h ++ path) with _ | v
    · simp only [tryHosts, ha] at hnone ⊢
      simp [ih hnone]
    · simp only [tryHosts, ha] at hnone
      exact Option.noConfusion hnone

theorem tryHosts_some_first (ej : Bool) (net : Net) (path : String)
    (params : List (String × PVal)) (hdrs : List (String × String)) :
    ∀ (l : List String) (v : RetVal),
      (tryHosts ej net path params hdrs l).1 = some v →
        ∃ pre host post, l = pre ++ host :: post ∧
          (∀ h ∈ pre, attempt ej net params hdrs (h ++ path) = none) ∧
          attempt ej net params hdrs (host ++ path) = some v ∧
          (tryHosts ej net path params hdrs l).2 = (pre ++ [host]).map (fun h => h ++ path) := by
  intro l
  induction l with
  | nil =>
    intro v hv
    simp [tryHosts] at hv
  | cons h t ih =>
    intro v hv
    rcases ha : attempt ej net params hdrs (h ++ path) with _ | w
    · simp only [tryHosts, ha] at hv ⊢
      obtain ⟨pre, host, post, hl, hpre, hhost, htr⟩ := ih v hv
      refine ⟨h :: pre, host, post, by simp [hl], ?_, hhost, ?_⟩
      · intro x hx
        rcases List.mem_cons.mp hx with rfl | hx
        · exact ha
        · exact hpre x hx
      · simp [htr]
    · simp only [tryHosts, ha] at hv ⊢
      obtain rfl : w = v := by injection hv
      exact ⟨[], h, t, rfl, by simp, ha, by simp⟩

-- ---------------------------------------------------------------------------
-- Claim theorems
-- ---------------------------------------------------------------------------

/-- C1: the requester attempts hosts strictly in fixed order (primary first,
then each backup in listed order); the first host attempt that succeeds
determines the result and ends the iteration (later hosts are not
attempted); if every host attempt fails, the requester returns `none` — and,
being a total function into `Option`, it raises no exception. -/
theorem requester_host_fallback (ej : Bool) (net : Net) (path : String)
    (params : List (String × PVal)) (headers : Option (List (String × String))) :
    ((_request_iconify net path params ej headers).1 = none →
        (∀ host ∈ ICONIFY_BASE :: ICONIFY_BACKUPS,
            attempt ej net params (_request_headers ej headers) (host ++ path) = none) ∧
          (_request_iconify net path params ej headers).2 =
            (ICONIFY_BASE :: ICONIFY_BACKUPS).map (fun h => h ++ path)) ∧
    ((∀ host ∈ ICONIFY_BASE :: ICONIFY_BACKUPS,
        attempt ej net params (_request_headers ej headers) (host ++ path) = none) →
      (_request_iconify net path params ej headers).1 = none) ∧
    (∀ v, (_request_iconify net path params ej headers).1 = some v →
      ∃ pre host post, ICONIFY_BASE :: ICONIFY_BACKUPS = pre ++ host :: post ∧
        (∀ h ∈ pre, attempt ej net params (_request_headers ej headers) (h ++ path) = none) ∧
        attempt ej net params (_request_headers ej headers) (host ++ path) = some v ∧
        (_request_iconify net path params ej headers).2 =
          (pre ++ [host]).map (fun h => h ++ path)) := by
  refine ⟨?_, ?_, ?_⟩
  · intro hnone
    exact ⟨(tryHosts_none_iff ej net path params (_request_headers ej headers)
      (ICONIFY_BASE :: ICONIFY_BACKUPS)).mp hnone,
      tryHosts_none_trace ej net path params (_request_headers ej headers)
        (ICONIFY_BASE :: ICONIFY_BACKUPS) hnone⟩
  · intro hall
    exact (tryHosts_none_iff ej net path params (_request_headers ej headers)
      (ICONIFY_BASE :: ICONIFY_BACKUPS)).mpr hall
  · intro v hv
    exact tryHosts_some_first ej net path params (_request_headers ej headers)
      (ICONIFY_BASE :: ICONIFY_BACKUPS) v hv

/-- Witness for C1: with every host failing, the requester returns `none`. -/
theorem requester_host_fallback_witness :
    (_request_iconify (fun _ _ _ => none) "/search" [] true none).1 = none :=
  (requester_host_fallback true (fun _ _ _ => none) "/search" [] none).2.1
    (fun _ _ => rfl)

/-- C2: for a structured (mapping) upstream search response, `search_icons`
returns the value verbatim exactly when it has an `"icons"` key — a mapping
whose icons field is an empty list counts as success — while a mapping
without the key, and the absence result after all hosts fail, yield the
fixed message `"Unable to fetch search results or no results found."`. -/
theorem search_icons_result_boundary :
    (∀ kvs : List (String × Json),
        search_shape (some (RetVal.json (Json.obj kvs))) =
          (if (kvs.map Prod.fst).contains "icons" then
              Except.ok (Sum.inl (RetVal.json (Json.obj kvs)))
            else Except.ok (Sum.inr searchFailMsg))) ∧
    search_shape none = Except.ok (Sum.inr searchFailMsg) ∧
    search_shape (some (RetVal.json (Json.obj [("icons", Json.arr [])]))) =
      Except.ok (Sum.inl (RetVal.json (Json.obj [("icons", Json.arr [])]))) ∧
    (∀ (net : Net) (query : String) (limit : Option Int) (start : Int)
        (pfx : Option String) (pfxs : Option (List String)) (category : Option String)
        (style : Option String) (palette : Option Bool),
      (search_icons net query limit start pfx pfxs category style palette).1 =
        search_shape (_request_iconify net "/search"
          (search_icons_params query limit start pfx pfxs category style palette)
          true none).1) := by
  refine ⟨?_, rfl, rfl, fun _ _ _ _ _ _ _ _ _ => rfl⟩
  intro kvs
  cases kvs with
  | nil => simp [search_shape, retTruthy, pyNot, retContains, jsonContains]
  | cons kv rest =>
    have htru : retTruthy (RetVal.json (Json.obj (kv :: rest))) = true := by
      simp [retTruthy, pyNot]
    have hcr : retContains "icons" (RetVal.json (Json.obj (kv :: rest))) =
        Except.ok (((kv :: rest).map Prod.fst).contains "icons") := rfl
    simp only [search_shape, hcr, htru, if_true]
    cases hc : ((kv :: rest).map Prod.fst).contains "icons" <;> simp

/-- C3: the limit normalizer returns 64 when the requested limit is unset,
and clamps every integer into [32, 999]: the value itself inside the range,
32 below it, 999 above it. -/
theorem clamp_limit_spec :
    _clamp_limit none = 64 ∧
    (∀ n : Int, 32 ≤ _clamp_limit (some n) ∧ _clamp_limit (some n) ≤ 999 ∧
        _clamp_limit (some n) = if n < 32 then 32 else if 999 < n then 999 else n) ∧
    _clamp_limit (some 10) = 32 ∧ _clamp_limit (some 5000) = 999 ∧
    _clamp_limit (some 64) = 64 := by
  refine ⟨rfl, fun n => ?_, rfl, rfl, rfl⟩
  simp only [_clamp_limit]
  refine ⟨by omega, by omega, ?_⟩
  split_ifs <;> omega

theorem split_icon_ok_aux (icon : String) (p n : List Char)
    (heq : icon.toList = p ++ ':' :: n) (hnp : ':' ∉ p) (hp : p ≠ []) (hn : n ≠ []) :
    _split_icon icon = Except.ok (String.mk p, String.mk n) := by
  unfold _split_icon
  rw [heq, splitOnceChar_append ':' p hnp n]
  simp [hp, hn]

theorem split_icon_error_aux (icon : String)
    (h : ¬ ∃ p n : List Char, icon.toList = p ++ ':' :: n ∧ ':' ∉ p ∧ p ≠ [] ∧ n ≠ []) :
    ∃ e, _split_icon icon = Except.error e := by
  rcases hs : splitOnceChar ':' icon.toList with _ | ⟨p, n⟩
  · have hs' : splitOnceChar ':' icon.data = none := hs
    exact ⟨"Icon must be in \x27prefix:name\x27 format, e.g., \x27mdi:home\x27",
      by simp [_split_icon, hs']⟩
  · obtain ⟨heq, hnp⟩ := splitOnceChar_sound ':' icon.toList p n hs
    have hs' : splitOnceChar ':' icon.data = some (p, n) := hs
    by_cases hpe : p = [] ∨ n = []
    · exact ⟨"Invalid icon, expected \x27prefix:name\x27", by simp [_split_icon, hs', hpe]⟩
    · push_neg at hpe
      exact absurd ⟨p, n, heq, hnp, hpe.1, hpe.2⟩ h

/-- C4: the icon-reference splitter fails exactly when the input has no `':'`
or the component before the first `':'` is empty or the component after it is
empty; on a well-formed input it returns the (prefix, name) pair, and
`_split_icon "mdi:home" = ("mdi", "home")`. -/
theorem split_icon_spec :
    (∀ icon : String,
        ((∃ e, _split_icon icon = Except.error e) ↔
          ¬ ∃ p n : List Char, icon.toList = p ++ ':' :: n ∧ ':' ∉ p ∧ p ≠ [] ∧ n ≠ [])) ∧
    (∀ (icon : String) (p n : List Char),
        icon.toList = p ++ ':' :: n → ':' ∉ p → p ≠ [] → n ≠ [] →
          _split_icon icon = Except.ok (String.mk p, String.mk n)) ∧
    _split_icon "mdi:home" = Except.ok ("mdi", "home") := by
  refine ⟨fun icon => ⟨?_, split_icon_error_aux icon⟩, split_icon_ok_aux, rfl⟩
  rintro ⟨e, he⟩ ⟨p, n, heq, hnp, hp, hn⟩
  rw [split_icon_ok_aux icon p n heq hnp hp hn] at he
  exact Except.noConfusion he

/-- Witness for C4: a concrete well-formed reference splits into its parts. -/
theorem split_icon_spec_witness : _split_icon "ab:cd" = Except.ok ("ab", "cd") :=
  split_icon_spec.2.1 "ab:cd" ['a', 'b'] ['c', 'd'] rfl (by decide) (by decide) (by decide)

/-- C10: the splitter splits at the first `':'` only — any input whose first
colon has a non-empty part on each side succeeds, and the name component may
itself contain colons: `"a:b:c"` yields `("a", "b:c")`. -/
theorem split_icon_first_colon :
    (∀ p n : List Char, ':' ∉ p → p ≠ [] → n ≠ [] →
        _split_icon (String.mk (p ++ ':' :: n)) = Except.ok (String.mk p, String.mk n)) ∧
    _split_icon "a:b:c" = Except.ok ("a", "b:c") := by
  refine ⟨fun p n hnp hp hn => ?_, rfl⟩
  exact split_icon_ok_aux (String.mk (p ++ ':' :: n)) p n rfl hnp hp hn

/-- Witness for C10: a name containing a further colon is kept whole. -/
theorem split_icon_first_colon_witness : _split_icon "x:y:z" = Except.ok ("x", "y:z") :=
  split_icon_first_colon.1 ['x'] ['y', ':', 'z'] (by decide) (by decide) (by decide)

theorem mem_strParam_iff (k : String) (f : String → PVal) (o : Option String)
    (kv : String × PVal) :
    kv ∈ strParam k f o ↔ ∃ s, o = some s ∧ s ≠ "" ∧ kv = (k, f s) := by
  cases o with
  | none => simp [strParam]
  | some s => by_cases hs : s = "" <;> simp [strParam, hs]

theorem mem_listStrParam_iff (k : String) (o : Option (List String))
    (kv : String × PVal) :
    kv ∈ listStrParam k o ↔
      ∃ ps, o = some ps ∧ ps ≠ [] ∧ kv = (k, .str (String.intercalate "," ps)) := by
  cases o with
  | none => simp [listStrParam]
  | some ps => by_cases hp : ps = [] <;> simp [listStrParam, hp]

theorem mem_boolParam_iff (k : String) (b : Bool) (v : PVal) (kv : String × PVal) :
    kv ∈ boolParam k b v ↔ b = true ∧ kv = (k, v) := by
  cases b <;> simp [boolParam]

/-- C5: style and palette never appear as query parameters of the search
request; they are instead appended as keyword tokens to the stripped query
text, which is sent as the `query` parameter, with
`buildSearchQuery "home" stroke false = "home style=stroke palette=false"`. -/
theorem search_keyword_injection :
    buildSearchQuery "home" (some "stroke") (some false) = "home style=stroke palette=false" ∧
    (∀ (q s : String) (b : Bool), s = "fill" ∨ s = "stroke" →
        buildSearchQuery q (some s) (some b) =
          pyStrip q ++ " style=" ++ s ++ " palette=" ++ (if b then "true" else "false") ∧
        buildSearchQuery q (some s) none = pyStrip q ++ " style=" ++ s) ∧
    (∀ (q : String) (b : Bool),
        buildSearchQuery q none (some b) =
          pyStrip q ++ " palette=" ++ (if b then "true" else "false")) ∧
    (∀ (query : String) (limit : Option Int) (start : Int) (pfx : Option String)
        (pfxs : Option (List String)) (category : Option String) (style : Option String)
        (palette : Option Bool),
      ("query", PVal.str (buildSearchQuery query style palette)) ∈
          search_icons_params query limit start pfx pfxs category style palette ∧
      (∀ v : PVal, ("style", v) ∉
          search_icons_params query limit start pfx pfxs category style palette) ∧
      (∀ v : PVal, ("palette", v) ∉
          search_icons_params query limit start pfx pfxs category style palette)) := by
  refine ⟨rfl, ?_, ?_, ?_⟩
  · rintro q s b (rfl | rfl) <;> exact ⟨rfl, rfl⟩
  · intro q b
    rfl
  · intro query limit start pfx pfxs category style palette
    refine ⟨by simp [search_icons_params], ?_, ?_⟩ <;> intro v <;>
      simp [search_icons_params, mem_strParam_iff, mem_listStrParam_iff]

/-- C7: in the SVG query parameters, each of color/width/height/rotate/flip
appears exactly when the corresponding argument is provided (and non-empty),
the color value has `#` encoded as `%23`, and `box`/`download` appear with
value 1 exactly when the corresponding boolean is true. -/
theorem get_svg_params_spec :
    encodeColor "#ff0000" = "%23ff0000" ∧ encodeColor "red" = "red" ∧
    (∀ (color width height rotate flip : Option String) (box download : Bool) (v : PVal),
      (("color", v) ∈ get_svg_params color width height rotate flip box download ↔
          ∃ c, color = some c ∧ c ≠ "" ∧ v = PVal.str (encodeColor c)) ∧
      (("width", v) ∈ get_svg_params color width height rotate flip box download ↔
          ∃ w, width = some w ∧ w ≠ "" ∧ v = PVal.str w) ∧
      (("height", v) ∈ get_svg_params color width height rotate flip box download ↔
          ∃ s, height = some s ∧ s ≠ "" ∧ v = PVal.str s) ∧
      (("rotate", v) ∈ get_svg_params color width height rotate flip box download ↔
          ∃ r, rotate = some r ∧ r ≠ "" ∧ v = PVal.str r) ∧
      (("flip", v) ∈ get_svg_params color width height rotate flip box download ↔
          ∃ f, flip = some f ∧ f ≠ "" ∧ v = PVal.str f) ∧
      (("box", v) ∈ get_svg_params color width height rotate flip box download ↔
          box = true ∧ v = PVal.int 1) ∧
      (("download", v) ∈ get_svg_params color width height rotate flip box download ↔
          download = true ∧ v = PVal.int 1)) := by
  refine ⟨rfl, rfl, ?_⟩
  intro color width height rotate flip box download v
  refine ⟨?_, ?_, ?_, ?_, ?_, ?_, ?_⟩ <;>
    simp [get_svg_params, mem_strParam_iff, mem_boolParam_iff]

/-- Witness for C5: the keyword injection at a concrete input. -/
theorem search_keyword_injection_witness :
    buildSearchQuery "a" (some "fill") (some true) =
      pyStrip "a" ++ " style=" ++ "fill" ++ " palette=" ++
        (if true then "true" else "false") :=
  (search_keyword_injection.2.1 "a" "fill" true (Or.inl rfl)).1

/-- C6: on a malformed icon reference, `get_svg` and `get_icon_data` return
the splitter's validation message as their result, with an empty request
trace — no network request is made, whatever the hosts would answer — and,
being total functions, they propagate no exception. -/
theorem malformed_icon_no_network (net : Net) (icon : String) (e : String)
    (he : _split_icon icon = Except.error e) :
    (∀ (color width height rotate flip : Option String) (box download : Bool),
        get_svg net icon color width height rotate flip box download = (Sum.inr e, [])) ∧
    get_icon_data net icon = (Sum.inr e, []) := by
  constructor
  · intro color width height rotate flip box download
    simp [get_svg, he]
  · simp [get_icon_data, he]

/-- Witness for C6: a reference without a colon yields the first validation
message, with no URL attempted, even with all hosts healthy. -/
theorem malformed_icon_no_network_witness :
    get_icon_data (fun _ _ _ => some ⟨some (Json.obj [("x", Json.null)]), "ok"⟩)
        "bad-icon-format" =
      (Sum.inr "Icon must be in \x27prefix:name\x27 format, e.g., \x27mdi:home\x27", []) :=
  (malformed_icon_no_network
    (fun _ _ _ => some ⟨some (Json.obj [("x", Json.null)]), "ok"⟩)
    "bad-icon-format" _ rfl).2

/-- C8: the collection listing always sends `prefix`, sends `info` and
`chars` as `"1"` exactly when the corresponding flag is set, and on an
absent or falsy upstream result returns the failure message naming the
requested prefix. -/
theorem list_icons_in_collection_spec :
    (∀ (pfx : String) (ii ic : Bool),
      ("prefix", PVal.str pfx) ∈ list_icons_in_collection_params pfx ii ic ∧
      (∀ v, ("info", v) ∈ list_icons_in_collection_params pfx ii ic ↔
          ii = true ∧ v = PVal.str "1") ∧
      (∀ v, ("chars", v) ∈ list_icons_in_collection_params pfx ii ic ↔
          ic = true ∧ v = PVal.str "1")) ∧
    (∀ pfx : String, collectionFailMsg pfx =
        "Unable to fetch icons for collection \x27" ++ pfx ++ "\x27.") ∧
    (∀ (net : Net) (pfx : String) (ii ic : Bool),
        (_request_iconify net "/collection" (list_icons_in_collection_params pfx ii ic)
            true none).1 = none →
          (list_icons_in_collection net pfx ii ic).1 = Sum.inr (collectionFailMsg pfx)) ∧
    (∀ (net : Net) (pfx : String) (ii ic : Bool) (v : RetVal),
        (_request_iconify net "/collection" (list_icons_in_collection_params pfx ii ic)
            true none).1 = some v →
          retTruthy v = false →
          (list_icons_in_collection net pfx ii ic).1 = Sum.inr (collectionFailMsg pfx)) := by
  refine ⟨?_, fun _ => rfl, ?_, ?_⟩
  · intro pfx ii ic
    refine ⟨by simp [list_icons_in_collection_params], ?_, ?_⟩ <;> intro v <;>
      simp [list_icons_in_collection_params, mem_boolParam_iff]
  · intro net pfx ii ic hnone
    simp [list_icons_in_collection, retOr, hnone]
  · intro net pfx ii ic v hv htr
    simp [list_icons_in_collection, retOr, hv, htr]

/-- Witness for C8: with every host down, the result is the failure message
naming the requested prefix. -/
theorem list_icons_in_collection_spec_witness :
    (list_icons_in_collection (fun _ _ _ => none) "mdi" false false).1 =
      Sum.inr (collectionFailMsg "mdi") :=
  list_icons_in_collection_spec.2.2.1 (fun _ _ _ => none) "mdi" false false rfl

/-- C9: a successful but falsy upstream payload (empty SVG text for
`get_svg`; a falsy JSON value for the three JSON operations) produces
exactly the operation's fixed failure message, the same result as when all
hosts fail. -/
theorem falsy_payload_is_failure (j : Json) (hj : pyNot j = true)
    (netJ netD : Net)
    (hJ : ∀ url ps hs, netJ url ps hs = some ⟨some j, ""⟩)
    (hD : ∀ url ps hs, netD url ps hs = none)
    (icon p n : String) (hicon : _split_icon icon = Except.ok (p, n)) :
    (get_svg netJ icon none none none none none false false).1 = Sum.inr svgFailMsg ∧
    (get_svg netD icon none none none none none false false).1 = Sum.inr svgFailMsg ∧
    (get_icon_data netJ icon).1 = Sum.inr iconDataFailMsg ∧
    (get_icon_data netD icon).1 = Sum.inr iconDataFailMsg ∧
    (list_collections netJ none none).1 = Sum.inr collectionsFailMsg ∧
    (list_collections netD none none).1 = Sum.inr collectionsFailMsg ∧
    (list_icons_in_collection netJ "mdi" false false).1 =
      Sum.inr (collectionFailMsg "mdi") ∧
    (list_icons_in_collection netD "mdi" false false).1 =
      Sum.inr (collectionFailMsg "mdi") := by
  have hAttJ : ∀ (ej : Bool) ps hs url, ej = true →
      attempt ej netJ ps hs url = some (RetVal.json j) := by
    intro ej ps hs url hej
    subst hej
    simp [attempt, hJ, attemptValue]
  have hAttJf : ∀ ps hs url, attempt false netJ ps hs url = some (RetVal.text "") := by
    intro ps hs url
    simp [attempt, hJ, attemptValue]
  have hAttD : ∀ (ej : Bool) ps hs url, attempt ej netD ps hs url = none := by
    intro ej ps hs url
    simp [attempt, hD]
  have hReqJ : ∀ path ps, (_request_iconify netJ path ps true none).1 =
      some (RetVal.json j) := by
    intro path ps
    simp [_request_iconify, tryHosts, hAttJ true ps _ _ rfl]
  have hReqJf : ∀ path ps, (_request_iconify netJ path ps false none).1 =
      some (RetVal.text "") := by
    intro path ps
    simp [_request_iconify, tryHosts, hAttJf]
  have hReqD : ∀ path ps ej, (_request_iconify netD path ps ej none).1 = none := by
    intro path ps ej
    simp [_request_iconify, tryHosts, hAttD]
  have htrJ : retTruthy (RetVal.json j) = false := by simp [retTruthy, hj]
  have htrT : retTruthy (RetVal.text "") = false := by simp [retTruthy]
  refine ⟨?_, ?_, ?_, ?_, ?_, ?_, ?_, ?_⟩
  · simp [get_svg, hicon, hReqJf, retOr, htrT]
  · simp [get_svg, hicon, hReqD, retOr]
  · simp [get_icon_data, hicon, hReqJ, retOr, htrJ]
  · simp [get_icon_data, hicon, hReqD, retOr]
  · simp [list_collections, hReqJ, retOr, htrJ]
  · simp [list_collections, hReqD, retOr]
  · simp [list_icons_in_collection, hReqJ, retOr, htrJ]
  · simp [list_icons_in_collection, hReqD, retOr]

/-- Witness for C9: an upstream empty JSON object is reported exactly like
an unreachable service. -/
theorem falsy_payload_is_failure_witness :
    (get_icon_data (fun _ _ _ => some ⟨some (Json.obj []), ""⟩) "mdi:home").1 =
      Sum.inr iconDataFailMsg :=
  (falsy_payload_is_failure (Json.obj []) rfl
    (fun _ _ _ => some ⟨some (Json.obj []), ""⟩) (fun _ _ _ => none)
    (fun _ _ _ => rfl) (fun _ _ _ => rfl)
    "mdi:home" "mdi" "home" rfl).2.2.1

end IconMcp
